import Mathlib

/-!
Shallow embedding of the CTFd bootstrap slice (src/CTFd/init module):
the ThemeLoader template resolver, the StrictVersion migration gate,
confirm_upgrade, run_upgrade, and the version-gate portion of create_app.

Python strings are modelled as Lean String values (lists of characters);
string methods used by the source (startswith, slicing, join, lower, strip)
are embedded below with Python semantics.
-/

/-- Embeds Python s.startswith(p): p is a character-wise leading segment of s. -/
def py_startswith (s p : String) : Bool := p.data.isPrefixOf s.data

/-- Embeds the Python slice s[n:] (drop the first n characters). -/
def py_drop (s : String) (n : Nat) : String := String.mk (s.data.drop n)

/-- Embeds Python "/".join on a list of strings: interleave a slash separator. -/
def py_join_slash : List String → String
  | [] => ""
  | [s] => s
  | s :: rest => s ++ "/" ++ py_join_slash rest

/-- Embeds Python s.lower(): lowercase every character. -/
def py_lower (s : String) : String := String.mk (s.data.map Char.toLower)

/-- Embeds Python s.strip(): remove leading and trailing whitespace. -/
def py_strip (s : String) : String :=
  String.mk (((s.data.dropWhile Char.isWhitespace).reverse.dropWhile
    Char.isWhitespace).reverse)

/-- Embeds Python s.split on a single separator character. -/
def py_split_char (sep : Char) : List Char → List (List Char)
  | [] => [[]]
  | c :: cs =>
    if c = sep then
      [] :: py_split_char sep cs
    else
      match py_split_char sep cs with
      | [] => [[c]]
      | h :: t => (c :: h) :: t

/-- Embeds Python int() on a run of characters: all decimal digits and
nonempty, read base 10; anything else is a parse failure. -/
def py_digits_to_nat (cs : List Char) : Option Nat :=
  if cs ≠ [] ∧ cs.all Char.isDigit then
    some (cs.foldl (fun n c => n * 10 + (c.toNat - 48)) 0)
  else
    none

/-- Failure modes of template-source resolution. templateNotFound embeds the
jinja2 TemplateNotFound condition raised by the underlying filesystem loader,
carrying the name the loader was asked for. typeError embeds the Python
TypeError raised by a slash-join whose first item is None (the value returned
by the configuration read when the active-theme key is absent). -/
inductive LoaderError where
  | templateNotFound (name : String) : LoaderError
  | typeError : LoaderError
deriving DecidableEq

/-- Embeds the Python join in the theme branch, where the theme item comes from
a configuration read and may be None: "/".join raises TypeError on None. -/
def py_join_slash_opt (items : List (Option String)) : Except LoaderError String :=
  if items.all Option.isSome then
    Except.ok (py_join_slash (items.map (fun o => o.getD "")))
  else
    Except.error LoaderError.typeError

namespace FileSystemLoader

/-- Embeds jinja2 FileSystemLoader.get_source for a loader whose searchpath
contents are the map fs from relative path to file text: on a hit it returns
(source, name, uptodate token); on a miss it raises TemplateNotFound carrying
the template name it was handed. -/
def get_source (fs : String → Option String) (template : String) :
    Except LoaderError (String × String × Bool) :=
  match fs template with
  | some src => Except.ok (src, template, true)
  | none => Except.error (LoaderError.templateNotFound template)

end FileSystemLoader

/-- Embeds the ThemeLoader class state: its overriden_templates dict. -/
structure ThemeLoader where
  overriden_templates : String → Option String

namespace ThemeLoader

/-- Embeds ThemeLoader.get_source. The config argument is the configuration
store as read at the time of this call (utils.get_config); fs is the
filesystem under the loader searchpath. Branches in source order:
override dict hit, admin-prefixed reference, theme-rewritten reference. -/
def get_source (loader : ThemeLoader) (config : String → Option String)
    (fs : String → Option String) (template : String) :
    Except LoaderError (String × String × Bool) :=
  match loader.overriden_templates template with
  | some src => Except.ok (src, template, true)
  | none =>
    if py_startswith template "admin/" then
      let stripped := py_drop template 6
      let rewritten := py_join_slash ["admin", "templates", stripped]
      FileSystemLoader.get_source fs rewritten
    else
      match py_join_slash_opt [config "ctf_theme", some "templates", some template] with
      | Except.ok rewritten => FileSystemLoader.get_source fs rewritten
      | Except.error e => Except.error e

end ThemeLoader

/- Helper facts about the embedded Python string operations. -/

theorem string_data_append (a b : String) : (a ++ b).data = a.data ++ b.data := rfl

theorem list_isPrefixOf_append (l t : List Char) : l.isPrefixOf (l ++ t) = true := by
  induction l with
  | nil => simp [List.isPrefixOf]
  | cons c cs ih => simp [List.isPrefixOf, ih]

theorem py_startswith_append (rest : String) :
    py_startswith ("admin/" ++ rest) "admin/" = true := by
  unfold py_startswith
  rw [string_data_append]
  exact list_isPrefixOf_append _ _

theorem py_drop_append (rest : String) : py_drop ("admin/" ++ rest) 6 = rest := by
  unfold py_drop
  rw [string_data_append]
  have h : ("admin/".data ++ rest.data).drop 6 = rest.data := by
    have h6 : "admin/".data.length = 6 := rfl
    rw [← h6, List.drop_left]
  rw [h]

theorem py_join_slash_three (a c : String) :
    py_join_slash [a, "templates", c] = a ++ "/templates/" ++ c := by
  show a ++ "/" ++ ("templates" ++ "/" ++ c) = a ++ "/templates/" ++ c
  apply congrArg String.mk
  show a.data ++ "/".data ++ ("templates".data ++ "/".data ++ c.data)
      = a.data ++ "/templates/".data ++ c.data
  simp only [List.append_assoc]
  rfl

theorem admin_templates_append (rest : String) :
    "admin" ++ "/templates/" ++ rest = "admin/templates/" ++ rest := by
  apply congrArg String.mk
  show "admin".data ++ "/templates/".data ++ rest.data
      = "admin/templates/".data ++ rest.data
  simp only [List.append_assoc]
  rfl

/-! Version gate and bootstrap. -/

/-- Embeds the module constant set at the top of the source file. -/
def running_version : String := "2.0.0"

/-- Embeds distutils StrictVersion parsing restricted to purely numeric
major.minor or major.minor.patch strings (the version-string shape this
program uses; an absent patch component parses as 0). Any other shape is
a parse failure, which in the source raises and aborts bootstrap. -/
def strictVersionParse (s : String) : Option (Nat × Nat × Nat) :=
  match (py_split_char '.' s.data).mapM py_digits_to_nat with
  | some [a, b] => some (a, b, 0)
  | some [a, b, c] => some (a, b, c)
  | _ => none

/-- Component-wise lexicographic order on parsed version triples: major,
then minor, then patch. This is both the order StrictVersion uses on
numeric versions and the order the specification describes. -/
def strictVersionLt (a b : Nat × Nat × Nat) : Bool :=
  a.1 < b.1 || (a.1 = b.1 && (a.2.1 < b.2.1 || (a.2.1 = b.2.1 && a.2.2 < b.2.2)))

/-- Embeds the Python truthiness test on the configuration read: None and
the empty string are falsy, every other string is truthy. -/
def py_truthy : Option String → Bool
  | none => false
  | some s => s ≠ ""

/-- Embeds the gate condition of create_app, line for line:
version and (StrictVersion(version) < StrictVersion(running)).
Returns none when a truthy version string fails to parse (the raised
ValueError propagates and aborts bootstrap). -/
def migration_gate (version : Option String) (running : String) : Option Bool :=
  if py_truthy version then
    match version with
    | some v =>
      match strictVersionParse v, strictVersionParse running with
      | some pv, some rv => some (strictVersionLt pv rv)
      | _, _ => none
    | none => none
  else
    some false

/-- Modelled from the spec: the Version Gate contract needs_migration, on
already-parsed versions. Absent persisted version means no migration; a
present persisted version needs migration exactly when it is strictly below
the running version component-wise. -/
def needs_migration : Option (Nat × Nat × Nat) → (Nat × Nat × Nat) → Bool
  | none, _ => false
  | some p, r => strictVersionLt p r

/-- Observable bootstrap environment: database driver name, whether stdin is
a tty, the answer the operator would type at the prompt, and whether an
invocation of the external alembic upgrade() succeeds. -/
structure BootEnv where
  driver : String
  isatty : Bool
  answer : String
  upgrade_ok : Bool

/-- Observable bootstrap state: the configuration store plus counters of the
externally visible migration actions (alembic upgrade() replays, ledger
stamps, create_all runs) and of interactive prompts issued. -/
structure BootState where
  config : String → Option String
  upgrades : Nat
  stamps : Nat
  createAlls : Nat
  prompts : Nat

/-- Embeds utils.set_config on the configuration store. -/
def set_config (st : BootState) (key value : String) : BootState :=
  { st with config := fun k => if k = key then some value else st.config k }

/-- Outcome of a bootstrap run: the app handle is returned ready, or the
process exits with the given status (exit() raising SystemExit), or an
unhandled exception propagates out of create_app. -/
inductive BootResult where
  | ready : BootResult
  | exited (code : Nat) : BootResult
  | error : BootResult
deriving DecidableEq

/-- Embeds confirm_upgrade. Returns the boolean decision together with the
number of interactive prompts issued (1 when stdin is a tty, else 0).
With a tty attached, the decision is whether the typed answer, lowercased
and stripped, equals y; without one, the decision is unconditionally yes. -/
def confirm_upgrade (isatty : Bool) (answer : String) : Bool × Nat :=
  if isatty then
    (py_strip (py_lower answer) == "y", 1)
  else
    (true, 0)

/-- Embeds run_upgrade: run the alembic upgrade(), and only if it returns
set the persisted version key to the running version. A raising upgrade()
propagates with the state unchanged from the entry state. -/
def run_upgrade (upgrade_ok : Bool) (st : BootState) : Except BootState BootState :=
  if upgrade_ok then
    Except.ok (set_config { st with upgrades := st.upgrades + 1 } "ctf_version" running_version)
  else
    Except.error st

/-- Embeds the engine-strategy block of create_app that runs before the
version gate: sqlite drivers get db.create_all() plus stamp(), every other
driver gets an unconditional alembic upgrade() replay. -/
def schema_setup (env : BootEnv) (st : BootState) : Except BootState BootState :=
  if py_startswith env.driver "sqlite" then
    Except.ok { st with createAlls := st.createAlls + 1, stamps := st.stamps + 1 }
  else if env.upgrade_ok then
    Except.ok { st with upgrades := st.upgrades + 1 }
  else
    Except.error st

/-- Embeds the version stamp line after the gate: when the version value
read before the gate was falsy, persist the running version directly. -/
def stamp_version (version : Option String) (st : BootState) : BootState :=
  if py_truthy version then st else set_config st "ctf_version" running_version

/-- Embeds the theme default line: when no theme is configured, persist
the default theme identifier core. -/
def default_theme (st : BootState) : BootState :=
  if py_truthy (st.config "ctf_theme") then st else set_config st "ctf_theme" "core"

/-- Embeds the two fallthrough lines after the gate in source order. The
version argument is the value read before the gate, as in the source. -/
def stamp_and_theme (version : Option String) (st : BootState) : BootState :=
  default_theme (stamp_version version st)

/-- Embeds the version-gate portion of create_app: read the persisted
version, evaluate the gate, and either prompt-and-upgrade, exit, or fall
through; then the version stamp and theme default lines. The version value
handed to the stamp line is the one read before the gate, as in the source. -/
def version_gate_step (env : BootEnv) (st : BootState) : BootResult × BootState :=
  match migration_gate (st.config "ctf_version") running_version with
  | none => (BootResult.error, st)
  | some g =>
    if g then
      if (confirm_upgrade env.isatty env.answer).1 then
        match run_upgrade env.upgrade_ok
            { st with prompts := st.prompts + (confirm_upgrade env.isatty env.answer).2 } with
        | Except.ok st3 => (BootResult.ready, stamp_and_theme (st.config "ctf_version") st3)
        | Except.error st3 => (BootResult.error, st3)
      else
        (BootResult.exited 0,
          { st with prompts := st.prompts + (confirm_upgrade env.isatty env.answer).2 })
    else
      (BootResult.ready, stamp_and_theme (st.config "ctf_version") st)

/-- Embeds the migration-relevant slice of create_app in source order: the
engine-strategy schema setup, then the version gate with its stamp and
theme-default fallthrough. Steps of create_app that do not touch the
configuration store, the migration ledger or the prompt are external glue
and leave this state unchanged. -/
def create_app (env : BootEnv) (st : BootState) : BootResult × BootState :=
  match schema_setup env st with
  | Except.error st1 => (BootResult.error, st1)
  | Except.ok st1 => version_gate_step env st1

/-! Concrete scenario data shared by the theorems below. -/

/-- Environment of the upgrade-declined scenario: a client-server database
driver, a tty attached, the operator answering N, alembic healthy. -/
def declined_env : BootEnv :=
  { driver := "mysql+pymysql", isatty := true, answer := "N", upgrade_ok := true }

/-- Environment with no interactive channel attached. -/
def daemon_env : BootEnv :=
  { driver := "mysql+pymysql", isatty := false, answer := "", upgrade_ok := true }

/-- Configuration state of an installed instance persisted at version 1.0.0. -/
def persisted_1_0_0_state : BootState :=
  { config := fun k => if k = "ctf_version" then some "1.0.0" else none,
    upgrades := 0, stamps := 0, createAlls := 0, prompts := 0 }

/-- Configuration state of a fresh install: nothing persisted yet. -/
def fresh_state : BootState :=
  { config := fun _ => none, upgrades := 0, stamps := 0, createAlls := 0, prompts := 0 }

/-- State produced by a successful run_upgrade from the 1.0.0 state. -/
def upgraded_1_0_0_state : BootState :=
  set_config { persisted_1_0_0_state with upgrades := persisted_1_0_0_state.upgrades + 1 }
    "ctf_version" running_version

/-! Helper lemmas about the bootstrap embedding. -/

theorem set_config_same (st : BootState) (k v : String) :
    (set_config st k v).config k = some v := by
  simp [set_config]

theorem set_config_other (st : BootState) (k v k2 : String) (h : k2 ≠ k) :
    (set_config st k v).config k2 = st.config k2 := by
  simp [set_config, h]

theorem set_config_counters (st : BootState) (k v : String) :
    (set_config st k v).upgrades = st.upgrades ∧
    (set_config st k v).prompts = st.prompts := ⟨rfl, rfl⟩

theorem default_theme_version (st : BootState) :
    (default_theme st).config "ctf_version" = st.config "ctf_version" := by
  unfold default_theme
  split
  · rfl
  · exact set_config_other st "ctf_theme" "core" "ctf_version" (by decide)

theorem default_theme_counters (st : BootState) :
    (default_theme st).upgrades = st.upgrades ∧
    (default_theme st).prompts = st.prompts := by
  unfold default_theme
  constructor <;> (split <;> rfl)

theorem stamp_version_counters (v : Option String) (st : BootState) :
    (stamp_version v st).upgrades = st.upgrades ∧
    (stamp_version v st).prompts = st.prompts := by
  unfold stamp_version
  constructor <;> (split <;> rfl)

theorem stamp_and_theme_counters (v : Option String) (st : BootState) :
    (stamp_and_theme v st).upgrades = st.upgrades ∧
    (stamp_and_theme v st).prompts = st.prompts := by
  unfold stamp_and_theme
  constructor
  · rw [(default_theme_counters _).1, (stamp_version_counters v st).1]
  · rw [(default_theme_counters _).2, (stamp_version_counters v st).2]

theorem stamp_and_theme_version_truthy (v : Option String) (st : BootState)
    (h : py_truthy v = true) :
    (stamp_and_theme v st).config "ctf_version" = st.config "ctf_version" := by
  unfold stamp_and_theme stamp_version
  rw [h]
  simp only [if_true]
  exact default_theme_version st

theorem stamp_and_theme_version_absent (v : Option String) (st : BootState)
    (hv : py_truthy v = false) :
    (stamp_and_theme v st).config "ctf_version" = some running_version := by
  unfold stamp_and_theme stamp_version
  rw [hv]
  simp only [Bool.false_eq_true, if_false]
  rw [default_theme_version]
  exact set_config_same st "ctf_version" running_version

theorem schema_setup_ok (env : BootEnv) (st st1 : BootState)
    (h : schema_setup env st = Except.ok st1) :
    st1.config = st.config ∧ st1.prompts = st.prompts := by
  unfold schema_setup at h
  split at h
  · cases h; exact ⟨rfl, rfl⟩
  · split at h
    · cases h; exact ⟨rfl, rfl⟩
    · cases h

theorem migration_gate_true_truthy (v : Option String) (r : String)
    (h : migration_gate v r = some true) : py_truthy v = true := by
  unfold migration_gate at h
  by_cases hp : py_truthy v = true
  · exact hp
  · rw [if_neg (by simpa using hp)] at h
    cases h

/-- Declined gate: with a tty attached and a non-affirmative answer, an open
gate leads to exit() with no state change beyond the single prompt. -/
theorem version_gate_step_declined (env : BootEnv) (st : BootState)
    (h1 : env.isatty = true) (h2 : py_strip (py_lower env.answer) ≠ "y")
    (hg : migration_gate (st.config "ctf_version") running_version = some true) :
    version_gate_step env st =
      (BootResult.exited 0, { st with prompts := st.prompts + 1 }) := by
  unfold version_gate_step
  rw [hg]
  have hb : (py_strip (py_lower env.answer) == "y") = false := beq_eq_false_iff_ne.mpr h2
  simp [confirm_upgrade, h1, hb]

/-- Closed gate: the fallthrough path runs only the stamp and theme lines. -/
theorem version_gate_step_gate_false (env : BootEnv) (st : BootState)
    (hg : migration_gate (st.config "ctf_version") running_version = some false) :
    version_gate_step env st =
      (BootResult.ready, stamp_and_theme (st.config "ctf_version") st) := by
  unfold version_gate_step
  rw [hg]
  simp

/-- Open gate with no tty: the upgrade runs without a prompt and the
persisted version becomes the running version. -/
theorem version_gate_step_auto (env : BootEnv) (st : BootState)
    (h1 : env.isatty = false) (h2 : env.upgrade_ok = true)
    (hg : migration_gate (st.config "ctf_version") running_version = some true) :
    ∃ st', version_gate_step env st = (BootResult.ready, st') ∧
      st'.upgrades = st.upgrades + 1 ∧ st'.prompts = st.prompts ∧
      st'.config "ctf_version" = some running_version := by
  have ht : py_truthy (st.config "ctf_version") = true :=
    migration_gate_true_truthy _ _ hg
  unfold version_gate_step
  rw [hg]
  simp only [confirm_upgrade, h1, Bool.false_eq_true, if_false, run_upgrade, h2, if_true]
  refine ⟨_, rfl, ?_, ?_, ?_⟩
  · rw [(stamp_and_theme_counters _ _).1]
    rfl
  · rw [(stamp_and_theme_counters _ _).2]
    simp [set_config]
  · rw [stamp_and_theme_version_truthy _ _ ht]
    exact set_config_same _ "ctf_version" running_version

/-! Claim theorems: template source resolution. -/

/-- Loader with a single override registered for the reference admin/x. -/
def admin_override_loader : ThemeLoader :=
  { overriden_templates := fun t => if t = "admin/x" then some "OVERRIDE" else none }

/-- Loader with no overrides registered. -/
def empty_loader : ThemeLoader := { overriden_templates := fun _ => none }

/-- Configuration store with the active theme set to core. -/
def core_theme_config : String → Option String :=
  fun k => if k = "ctf_theme" then some "core" else none

/-- C3: when the requested reference is a key of the override map, get_source
returns the override source text directly together with the stable validity
token true, regardless of the shape of the reference (in particular also for
references that would match the admin or theme rule). -/
theorem override_precedence (loader : ThemeLoader) (config fs : String → Option String)
    (template src : String)
    (h : loader.overriden_templates template = some src) :
    ThemeLoader.get_source loader config fs template =
      Except.ok (src, template, true) := by
  unfold ThemeLoader.get_source
  rw [h]

/-- C3 witness: an override registered for admin/x wins over the admin rule
and is returned with validity token true. -/
theorem override_precedence_witness :
    ThemeLoader.get_source admin_override_loader core_theme_config (fun _ => none) "admin/x" =
      Except.ok ("OVERRIDE", "admin/x", true) :=
  override_precedence admin_override_loader core_theme_config (fun _ => none)
    "admin/x" "OVERRIDE" rfl

/-- Shared delegation fact for the theme branch of get_source. -/
theorem get_source_theme_delegate (loader : ThemeLoader)
    (config fs : String → Option String) (template theme : String)
    (h1 : loader.overriden_templates template = none)
    (h2 : py_startswith template "admin/" = false)
    (h3 : config "ctf_theme" = some theme) :
    ThemeLoader.get_source loader config fs template =
      FileSystemLoader.get_source fs (theme ++ "/templates/" ++ template) := by
  unfold ThemeLoader.get_source
  rw [h1, h3]
  simp only [h2, Bool.false_eq_true, if_false]
  simp only [py_join_slash_opt, List.all, Option.isSome, Bool.and_true, List.map,
    Option.getD, if_true]
  rw [py_join_slash_three]

/-- Shared delegation fact for the admin branch of get_source. -/
theorem get_source_admin_delegate (loader : ThemeLoader)
    (config fs : String → Option String) (rest : String)
    (h1 : loader.overriden_templates ("admin/" ++ rest) = none) :
    ThemeLoader.get_source loader config fs ("admin/" ++ rest) =
      FileSystemLoader.get_source fs ("admin/templates/" ++ rest) := by
  unfold ThemeLoader.get_source
  rw [h1, py_startswith_append]
  simp only [if_true]
  rw [py_drop_append, py_join_slash_three, admin_templates_append]

/-- C6: a reference with no override that does not start with admin/ is
delegated to the filesystem loader at the rewritten path theme/templates/name,
where theme is the value read from the configuration store passed to this
very call, so a runtime theme switch is observed on the next resolution. -/
theorem theme_rule_resolution (loader : ThemeLoader) (config fs : String → Option String)
    (template theme : String)
    (h1 : loader.overriden_templates template = none)
    (h2 : py_startswith template "admin/" = false)
    (h3 : config "ctf_theme" = some theme) :
    ThemeLoader.get_source loader config fs template =
      FileSystemLoader.get_source fs (theme ++ "/templates/" ++ template) :=
  get_source_theme_delegate loader config fs template theme h1 h2 h3

/-- C6 witness: with active theme core, the reference page resolves through
the filesystem loader at core/templates/page. -/
theorem theme_rule_resolution_witness :
    ThemeLoader.get_source empty_loader core_theme_config
        (fun p => if p = "core/templates/page" then some "PAGE" else none) "page" =
      Except.ok ("PAGE", "core/templates/page", true) := by
  have h := theme_rule_resolution empty_loader core_theme_config
    (fun p => if p = "core/templates/page" then some "PAGE" else none)
    "page" "core" rfl (by decide) rfl
  rw [h]
  rfl

/-- C7: a reference admin/rest with no override strips exactly the one
leading admin/ segment and is delegated to the filesystem loader at the
rewritten path admin/templates/rest; the configuration store is not
consulted in this branch, so the result is identical under any two
configuration stores. -/
theorem admin_rule_resolution (loader : ThemeLoader)
    (config config2 fs : String → Option String) (rest : String)
    (h1 : loader.overriden_templates ("admin/" ++ rest) = none) :
    ThemeLoader.get_source loader config fs ("admin/" ++ rest) =
      FileSystemLoader.get_source fs ("admin/templates/" ++ rest) ∧
    ThemeLoader.get_source loader config fs ("admin/" ++ rest) =
      ThemeLoader.get_source loader config2 fs ("admin/" ++ rest) :=
  ⟨get_source_admin_delegate loader config fs rest h1,
    (get_source_admin_delegate loader config fs rest h1).trans
      (get_source_admin_delegate loader config2 fs rest h1).symm⟩

/-- C7 witness: admin/admin/x strips exactly one admin/ segment, yielding
admin/templates/admin/x, under two different active themes. -/
theorem admin_rule_resolution_witness :
    ThemeLoader.get_source empty_loader core_theme_config (fun _ => none) "admin/admin/x" =
      FileSystemLoader.get_source (fun _ : String => (none : Option String))
        "admin/templates/admin/x" ∧
    ThemeLoader.get_source empty_loader core_theme_config (fun _ => none) "admin/admin/x" =
      ThemeLoader.get_source empty_loader (fun _ => some "other") (fun _ => none)
        "admin/admin/x" :=
  admin_rule_resolution empty_loader core_theme_config (fun _ => some "other")
    (fun _ => none) "admin/x" rfl

/-- C8 counterexample: with no override and an empty filesystem, resolving
admin/x fails with TemplateNotFound carrying the rewritten path
admin/templates/x, which differs from the original reference admin/x, so
the condition does not carry the original reference. -/
theorem template_not_found_original_counterexample :
    ThemeLoader.get_source empty_loader core_theme_config (fun _ => none) "admin/x" =
      Except.error (LoaderError.templateNotFound "admin/templates/x") ∧
    ("admin/templates/x" : String) ≠ "admin/x" := by
  exact ⟨rfl, by decide⟩

/-- C8 (amended): when the underlying filesystem loader cannot find the
rewritten path, resolution of an admin or theme reference fails with a
TemplateNotFound condition carrying the rewritten path, not the original
reference. -/
theorem template_not_found_carries_rewritten :
    (∀ (loader : ThemeLoader) (config fs : String → Option String) (rest : String),
      loader.overriden_templates ("admin/" ++ rest) = none →
      fs ("admin/templates/" ++ rest) = none →
      ThemeLoader.get_source loader config fs ("admin/" ++ rest) =
        Except.error (LoaderError.templateNotFound ("admin/templates/" ++ rest))) ∧
    (∀ (loader : ThemeLoader) (config fs : String → Option String)
        (template theme : String),
      loader.overriden_templates template = none →
      py_startswith template "admin/" = false →
      config "ctf_theme" = some theme →
      fs (theme ++ "/templates/" ++ template) = none →
      ThemeLoader.get_source loader config fs template =
        Except.error (LoaderError.templateNotFound
          (theme ++ "/templates/" ++ template))) := by
  constructor
  · intro loader config fs rest h1 hfs
    rw [get_source_admin_delegate loader config fs rest h1]
    unfold FileSystemLoader.get_source
    rw [hfs]
  · intro loader config fs template theme h1 h2 h3 hfs
    rw [get_source_theme_delegate loader config fs template theme h1 h2 h3]
    unfold FileSystemLoader.get_source
    rw [hfs]

/-- C8 witness: both the admin and the theme branch report the rewritten
path on a filesystem miss. -/
theorem template_not_found_carries_rewritten_witness :
    ThemeLoader.get_source empty_loader core_theme_config (fun _ => none) "admin/y" =
      Except.error (LoaderError.templateNotFound "admin/templates/y") ∧
    ThemeLoader.get_source empty_loader core_theme_config (fun _ => none) "page" =
      Except.error (LoaderError.templateNotFound "core/templates/page") := by
  constructor
  · exact template_not_found_carries_rewritten.1 empty_loader core_theme_config
      (fun _ => none) "y" rfl rfl
  · exact template_not_found_carries_rewritten.2 empty_loader core_theme_config
      (fun _ => none) "page" "core" rfl (by decide) rfl rfl

/-- C10: when the configuration store holds no active theme, resolving a
non-override, non-admin reference neither returns a source nor fails with
TemplateNotFound: the slash-join of the absent theme raises the
unclassified TypeError of the path-rewrite step. -/
theorem theme_absent_unclassified_error (loader : ThemeLoader)
    (config fs : String → Option String) (template : String)
    (h1 : loader.overriden_templates template = none)
    (h2 : py_startswith template "admin/" = false)
    (h3 : config "ctf_theme" = none) :
    ThemeLoader.get_source loader config fs template =
      Except.error LoaderError.typeError ∧
    (∀ v, ThemeLoader.get_source loader config fs template ≠ Except.ok v) ∧
    (∀ n, ThemeLoader.get_source loader config fs template ≠
      Except.error (LoaderError.templateNotFound n)) := by
  have key : ThemeLoader.get_source loader config fs template =
      Except.error LoaderError.typeError := by
    unfold ThemeLoader.get_source
    rw [h1, h3]
    simp only [h2, Bool.false_eq_true, if_false]
    simp [py_join_slash_opt]
  refine ⟨key, ?_, ?_⟩
  · intro v hcon
    rw [key] at hcon
    cases hcon
  · intro n hcon
    rw [key] at hcon
    injection hcon with h4
    cases h4

/-- C10 witness: resolving page with no theme configured yields the
TypeError outcome. -/
theorem theme_absent_unclassified_error_witness :
    ThemeLoader.get_source empty_loader (fun _ => none) (fun _ => none) "page" =
      Except.error LoaderError.typeError :=
  (theme_absent_unclassified_error empty_loader (fun _ => none) (fun _ => none)
    "page" rfl (by decide) rfl).1

/-! Claim theorems: version gate and bootstrap. -/

/-- C1 counterexample: a bootstrap run on a client-server engine with
persisted version 1.0.0, a tty attached and the operator answering N exits
at the gate, yet one schema-migration replay (the unconditional engine
strategy upgrade) has already run before the prompt, starting from a state
with no migrations run. -/
theorem migration_before_confirmation_counterexample :
    persisted_1_0_0_state.upgrades = 0 ∧
    (create_app declined_env persisted_1_0_0_state).1 = BootResult.exited 0 ∧
    (create_app declined_env persisted_1_0_0_state).2.upgrades = 1 :=
  ⟨rfl, rfl, rfl⟩

/-- C1 (amended): the version-gated migration (run_upgrade) executes only
after explicit affirmative confirmation: in every gate-open run with a tty
attached where the operator declines, the process exits with the
configuration store and the migration counter exactly as they were after
the engine-strategy step, which itself runs unconditionally before the
prompt. -/
theorem gated_migration_requires_confirmation (env : BootEnv) (st : BootState)
    (h1 : env.isatty = true) (h2 : py_strip (py_lower env.answer) ≠ "y")
    (hg : migration_gate (st.config "ctf_version") running_version = some true) :
    version_gate_step env st =
      (BootResult.exited 0, { st with prompts := st.prompts + 1 }) ∧
    (version_gate_step env st).2.upgrades = st.upgrades ∧
    (version_gate_step env st).2.config = st.config := by
  have h := version_gate_step_declined env st h1 h2 hg
  exact ⟨h, by rw [h], by rw [h]⟩

/-- C1 witness: the declined scenario instantiated at the 1.0.0 state. -/
theorem gated_migration_requires_confirmation_witness :
    version_gate_step declined_env persisted_1_0_0_state =
      (BootResult.exited 0,
        { persisted_1_0_0_state with prompts := persisted_1_0_0_state.prompts + 1 }) :=
  (gated_migration_requires_confirmation declined_env persisted_1_0_0_state rfl
    (by decide) rfl).1

/-- C2: the version gate decides migration exactly as the spec-side
needs_migration contract: absent persisted version means no migration; a
parsed persisted version opens the gate iff it is component-wise strictly
below the parsed running version; when the gate is closed the bootstrap
proceeds without prompting or migrating; when it is open with no tty the
upgrade path runs. -/
theorem version_gate_correct :
    (∀ r, migration_gate none r = some false) ∧
    (∀ v r pv rv, strictVersionParse v = some pv → strictVersionParse r = some rv →
      v ≠ "" → migration_gate (some v) r = some (needs_migration (some pv) rv)) ∧
    (∀ (env : BootEnv) (st : BootState),
      migration_gate (st.config "ctf_version") running_version = some false →
      ∃ st', version_gate_step env st = (BootResult.ready, st') ∧
        st'.upgrades = st.upgrades ∧ st'.prompts = st.prompts) ∧
    (∀ (env : BootEnv) (st : BootState),
      env.isatty = false → env.upgrade_ok = true →
      migration_gate (st.config "ctf_version") running_version = some true →
      ∃ st', version_gate_step env st = (BootResult.ready, st') ∧
        st'.upgrades = st.upgrades + 1) := by
  refine ⟨?_, ?_, ?_, ?_⟩
  · intro r
    rfl
  · intro v r pv rv hv hr hne
    have ht : py_truthy (some v) = true := by simp [py_truthy, hne]
    simp [migration_gate, ht, hv, hr, needs_migration]
  · intro env st hg
    refine ⟨stamp_and_theme (st.config "ctf_version") st,
      version_gate_step_gate_false env st hg, ?_, ?_⟩
    · exact (stamp_and_theme_counters _ _).1
    · exact (stamp_and_theme_counters _ _).2
  · intro env st h1 h2 hg
    obtain ⟨st', he, hu, -, -⟩ := version_gate_step_auto env st h1 h2 hg
    exact ⟨st', he, hu⟩

/-- C2 witness: the three gate examples of the spec, plus a closed-gate and
an open-gate bootstrap run. -/
theorem version_gate_correct_witness :
    migration_gate none "2.0.0" = some false ∧
    migration_gate (some "1.9.0") "2.0.0" = some true ∧
    migration_gate (some "2.0.0") "2.0.0" = some false ∧
    (version_gate_step daemon_env persisted_1_0_0_state).1 = BootResult.ready := by
  have h := version_gate_correct
  refine ⟨h.1 "2.0.0", ?_, ?_, ?_⟩
  · exact (h.2.1 "1.9.0" "2.0.0" (1, 9, 0) (2, 0, 0) rfl rfl (by decide)).trans (by decide)
  · exact (h.2.1 "2.0.0" "2.0.0" (2, 0, 0) (2, 0, 0) rfl rfl (by decide)).trans (by decide)
  · obtain ⟨st', he, -⟩ := h.2.2.2 daemon_env persisted_1_0_0_state rfl rfl rfl
    rw [he]

/-- C4 counterexample: in the upgrade-declined scenario (persisted 1.0.0,
running 2.0.0, tty attached, answer N) the process terminates through exit()
with status 0, not a non-zero status, while the persisted version stays
1.0.0. -/
theorem declined_exit_code_counterexample :
    (create_app declined_env persisted_1_0_0_state).1 = BootResult.exited 0 ∧
    ¬ (∃ c : Nat, c ≠ 0 ∧
      (create_app declined_env persisted_1_0_0_state).1 = BootResult.exited c) ∧
    (create_app declined_env persisted_1_0_0_state).2.config "ctf_version" =
      some "1.0.0" := by
  refine ⟨rfl, ?_, rfl⟩
  rintro ⟨c, hc, h⟩
  have h0 : BootResult.exited c = BootResult.exited 0 :=
    h.symm.trans (rfl : (create_app declined_env persisted_1_0_0_state).1
      = BootResult.exited 0)
  injection h0 with h1
  exact hc h1

/-- C4 (amended): with persisted version 1.0.0, running version 2.0.0, a tty
attached and an answer other than affirmative, bootstrap terminates the
process via exit() with status 0 (Python exit with no argument), and the
persisted version remains 1.0.0. -/
theorem declined_upgrade_exits_zero (env : BootEnv) (st1 : BootState)
    (h1 : env.isatty = true) (h2 : py_strip (py_lower env.answer) ≠ "y")
    (h3 : schema_setup env persisted_1_0_0_state = Except.ok st1) :
    ∃ st', create_app env persisted_1_0_0_state = (BootResult.exited 0, st') ∧
      st'.config "ctf_version" = some "1.0.0" ∧ st'.upgrades = st1.upgrades := by
  have hc := (schema_setup_ok env _ st1 h3).1
  have hg : migration_gate (st1.config "ctf_version") running_version = some true := by
    rw [hc]
    rfl
  have hd := version_gate_step_declined env st1 h1 h2 hg
  refine ⟨{ st1 with prompts := st1.prompts + 1 }, ?_, ?_, rfl⟩
  · unfold create_app
    rw [h3]
    exact hd
  · show st1.config "ctf_version" = some "1.0.0"
    rw [hc]
    rfl

/-- C4 witness: the declined scenario at the concrete environment. -/
theorem declined_upgrade_exits_zero_witness :
    ∃ st', create_app declined_env persisted_1_0_0_state =
        (BootResult.exited 0, st') ∧
      st'.config "ctf_version" = some "1.0.0" ∧
      st'.upgrades = ({ persisted_1_0_0_state with upgrades := 1 } : BootState).upgrades :=
  declined_upgrade_exits_zero declined_env
    { persisted_1_0_0_state with upgrades := 1 } rfl (by decide) rfl

/-- C5: run_upgrade writes the persisted version only after the migration
step returns: a failing migration leaves the whole state, and in particular
the persisted version, exactly unchanged, and every successful run leaves
the persisted version equal to the running version. -/
theorem run_upgrade_atomic (ok : Bool) (st : BootState) :
    (ok = false → run_upgrade ok st = Except.error st) ∧
    (∀ st', run_upgrade ok st = Except.ok st' →
      st'.config "ctf_version" = some running_version ∧
      st'.upgrades = st.upgrades + 1) := by
  constructor
  · intro h
    rw [h]
    rfl
  · intro st' h
    cases ok with
    | false => cases h
    | true =>
      have he : st' = set_config { st with upgrades := st.upgrades + 1 }
          "ctf_version" running_version := by
        have := h.symm.trans (rfl : run_upgrade true st = Except.ok
          (set_config { st with upgrades := st.upgrades + 1 } "ctf_version" running_version))
        injection this
      rw [he]
      exact ⟨set_config_same _ _ _, rfl⟩

/-- C5 witness: a failing upgrade from the 1.0.0 state returns it untouched;
a successful one stamps the running version. -/
theorem run_upgrade_atomic_witness :
    run_upgrade false persisted_1_0_0_state = Except.error persisted_1_0_0_state ∧
    upgraded_1_0_0_state.config "ctf_version" = some running_version := by
  constructor
  · exact (run_upgrade_atomic false persisted_1_0_0_state).1 rfl
  · exact ((run_upgrade_atomic true persisted_1_0_0_state).2 upgraded_1_0_0_state rfl).1

/-- C9: when the persisted version is absent at bootstrap, no prompt occurs
and the gated upgrade path does not run: the bootstrap reaches the ready
state with the persisted version stamped directly to the running version,
the prompt counter untouched and the migration counter exactly as the
engine-strategy step left it. -/
theorem fresh_install_stamps_version (env : BootEnv) (st0 st1 : BootState)
    (h0 : st0.config "ctf_version" = none)
    (h1 : schema_setup env st0 = Except.ok st1) :
    ∃ st', create_app env st0 = (BootResult.ready, st') ∧
      st'.config "ctf_version" = some running_version ∧
      st'.prompts = st0.prompts ∧ st'.upgrades = st1.upgrades := by
  have hc := (schema_setup_ok env st0 st1 h1).1
  have hp := (schema_setup_ok env st0 st1 h1).2
  have hv : st1.config "ctf_version" = none := by rw [hc, h0]
  have hg : migration_gate (st1.config "ctf_version") running_version = some false := by
    rw [hv]
    rfl
  refine ⟨stamp_and_theme (st1.config "ctf_version") st1, ?_, ?_, ?_, ?_⟩
  · unfold create_app
    rw [h1]
    exact version_gate_step_gate_false env st1 hg
  · apply stamp_and_theme_version_absent
    rw [hv]
    rfl
  · rw [(stamp_and_theme_counters _ _).2, hp]
  · exact (stamp_and_theme_counters _ _).1

/-- C9 witness: a fresh install on a client-server engine. -/
theorem fresh_install_stamps_version_witness :
    ∃ st', create_app daemon_env fresh_state = (BootResult.ready, st') ∧
      st'.config "ctf_version" = some running_version ∧
      st'.prompts = fresh_state.prompts ∧
      st'.upgrades = ({ fresh_state with upgrades := 1 } : BootState).upgrades :=
  fresh_install_stamps_version daemon_env fresh_state
    { fresh_state with upgrades := 1 } rfl rfl
